import Mathlib

/-!
Verification model of the image upload / proxy gateway (src/app.py with
src/config.py).  The upload pipeline (`upload_image`), the embedding client
(`_embed_image_with_cohere_v4`), the relevant helpers (`allowed_file`,
Python's `str.strip('/')`, `str.rsplit('.', 1)` and `str.split('/')`) and the
image proxy (`serve_image`) are shallowly embedded as pure Lean functions.
External capabilities (the OCI object store, the Cohere inference endpoint,
the Oracle database) are modelled by their observable outcomes: each call
either returns a value or raises, recorded in a `CallResult` supplied through
a `World` value, and the pipeline's outgoing calls are recorded in a `Trace`.
-/

namespace ImageGateway

/-- Outcome of one call to an external capability: a normal return, or a
raised exception (any `Exception` in the Python code). -/
inductive CallResult (α : Type) where
  | ok (a : α)
  | raise
deriving DecidableEq

/-- An embedding vector: `array('f', emb)` in the code.  The numeric values
are irrelevant to every property proved here, so float32 entries are
abstracted as integers. -/
abbrev Vec := List Int

/-- The configuration fields of `config.py` (class `Settings`) that the
upload pipeline reads, with their defaults in `defaultSettings`. -/
structure Settings where
  ALLOWED_EXTENSIONS : List String
  MAX_CONTENT_LENGTH : Nat
  OCI_BUCKET : String
deriving DecidableEq

/-- The default values of `config.py`: extensions
`['png','jpg','jpeg','gif','webp','bmp','svg']`, 16 MiB ceiling, bucket
`chatbot-images`. -/
def defaultSettings : Settings :=
  { ALLOWED_EXTENSIONS := ["png", "jpg", "jpeg", "gif", "webp", "bmp", "svg"]
    MAX_CONTENT_LENGTH := 16 * 1024 * 1024
    OCI_BUCKET := "chatbot-images" }

/-- Python `filename.rsplit('.', 1)[1]` for a string that contains a dot:
the characters after the last `'.'`. -/
def afterLastDot (filename : String) : String :=
  String.mk ((filename.toList.reverse.takeWhile (fun c => c ≠ '.')).reverse)

/-- Python `str.lower()` on the ASCII strings involved here: lower-case the
string character by character. -/
def pyLower (s : String) : String :=
  String.mk (s.toList.map Char.toLower)

/-- `allowed_file` (app.py lines 139-143): false on an empty filename or a
filename without a dot, otherwise tests whether the lower-cased last
extension is in the allow-list. -/
def allowed_file (s : Settings) (filename : String) : Bool :=
  if filename = "" then false
  else if filename.toList.contains '.' = false then false
  else s.ALLOWED_EXTENSIONS.contains (pyLower (afterLastDot filename))

/-- Python `folder.strip('/')`: remove every leading and trailing `'/'`. -/
def stripSlashes (s : String) : String :=
  String.mk (((s.toList.reverse.dropWhile (fun c => c = '/')).reverse).dropWhile
    (fun c => c = '/'))

/-- Python `obj.split(sep)` for a one-character separator, on character
lists: splits on every occurrence, keeping empty segments, and returns
`[[]]` on the empty string. -/
def pySplit (sep : Char) : List Char → List (List Char)
  | [] => [[]]
  | c :: cs =>
    if c = sep then [] :: pySplit sep cs
    else
      match pySplit sep cs with
      | [] => [[c]]
      | g :: gs => (c :: g) :: gs

/-- The characters of `l` after its last occurrence of `sep` (all of `l`
when `sep` does not occur): the specification's "last slash-separated
segment" reading, stated independently of `pySplit`. -/
def lastSeg (sep : Char) (l : List Char) : List Char :=
  (l.reverse.takeWhile (fun c => c ≠ sep)).reverse

/-- Python truthiness of an optional string: `None` and `""` are falsy. -/
def truthy : Option String → Option String
  | none => none
  | some s => if s = "" then none else some s

/-- Python `a or b` over optional strings (`None`/`""` falsy), returning a
plain string: used for the content-type fallback chain on app.py line 530. -/
def orFalsy (a : Option String) (b : String) : String :=
  match truthy a with
  | some s => s
  | none => b

/-- `region = settings.OCI_REGION or config.get("region")` (app.py line
155): the first truthy of the two optional sources. -/
def resolveRegion (ociRegion configRegion : Option String) : Option String :=
  match truthy ociRegion with
  | some r => some r
  | none => truthy configRegion

/-- What the inference capability does when `gai.embed_text` is reached:
either the call raises (transport/model fault) or it returns a batch of
embedding vectors, possibly empty. -/
inductive InferOutcome where
  | raises
  | returns (embeddings : List Vec)
deriving DecidableEq

/-- `_embed_image_with_cohere_v4` (app.py lines 146-179), with the two
external inputs made explicit: the two region sources and the inference
outcome.  It raises when no region resolves (`RuntimeError`, line 157) and
when the inference call raises; otherwise it returns the batch unchanged —
in particular an empty batch is returned as `ok []`, not raised. -/
def embed_image_with_cohere_v4 (ociRegion configRegion : Option String)
    (infer : InferOutcome) : CallResult (List Vec) :=
  match resolveRegion ociRegion configRegion with
  | none => CallResult.raise
  | some _ =>
    match infer with
    | InferOutcome.raises => CallResult.raise
    | InferOutcome.returns es => CallResult.ok es

/-- The environment one POST /upload request runs in: the object-store
client's connectivity (`oci_client.is_connected()`), and the outcome each
external call would have if performed. -/
structure World where
  connected : Bool
  embedResult : CallResult (List Vec)
  putResult : CallResult Unit
  dbResult : CallResult Unit
deriving DecidableEq

/-- One multipart POST /upload request as the handler observes it.
`formFolder` is `request.form.get('folder', '')` (absent form field ↦ `""`);
`formBucket` is `none` when the form has no `bucket` field;
`contentType` is `file.content_type` and `guessedType` the result of
`mimetypes.guess_type(file.filename)[0]` (`some ""` models a present but
empty value, which Python's `or` treats as falsy); `uuidHex` is the
`uuid.uuid4().hex` random token drawn for this request (32 lower-case hex
characters); `raw` is the uploaded byte string. -/
structure UploadRequest where
  hasFilePart : Bool
  filename : String
  raw : List Nat
  formBucket : Option String
  formFolder : String
  contentType : Option String
  guessedType : Option String
  uuidHex : String
deriving DecidableEq

/-- The `data` object of a successful upload response (app.py lines
564-576).  `uploaded_at` is wall-clock time and is not modelled. -/
structure UploadData where
  object_name : String
  bucket : String
  proxy_url : String
  file_size : Nat
  content_type : String
  embedding_saved : Bool
deriving DecidableEq

/-- An HTTP response of the upload handler: the status code, and the `data`
object when the response is the success JSON. -/
structure UploadResponse where
  status : Nat
  data : Option UploadData
deriving DecidableEq

/-- Which outgoing calls the handler performed: whether
`_embed_image_with_cohere_v4` was called, and the `(bucket, object_name)`
arguments of the `put_object` call and of the `_save_embedding_to_db` call
when they happened. -/
structure Trace where
  embedCalled : Bool
  putCall : Option (String × String)
  dbCall : Option (String × String)
deriving DecidableEq

/-- The trace of a request that performed no outgoing call. -/
def noCalls : Trace := { embedCalled := false, putCall := none, dbCall := none }

/-- `bucket = request.form.get('bucket', settings.OCI_BUCKET)` (app.py
line 525). -/
def derivedBucket (s : Settings) (req : UploadRequest) : String :=
  req.formBucket.getD s.OCI_BUCKET

/-- The object-key derivation of app.py lines 526-529:
`unique_filename = f"{uuid.uuid4().hex}.{ext}"` with `ext` the lower-cased
last extension, prefixed by `f"{folder.strip('/')}/"` when the folder field
is truthy (non-empty). -/
def derivedKey (req : UploadRequest) : String :=
  if req.formFolder = "" then
    req.uuidHex ++ "." ++ pyLower (afterLastDot req.filename)
  else
    stripSlashes req.formFolder ++ "/" ++
      (req.uuidHex ++ "." ++ pyLower (afterLastDot req.filename))

/-- `content_type = file.content_type or mimetypes.guess_type(...)[0] or
'image/png'` (app.py line 530). -/
def derivedContentType (req : UploadRequest) : String :=
  orFalsy req.contentType (orFalsy req.guessedType "image/png")

/-- The `embedding` local variable after the try/except of app.py lines
535-544: `none` when the call raises (the exception is caught and logged),
otherwise the head of the returned batch (`if embeddings:
embedding = embeddings[0]`, so an empty batch leaves it `None`). -/
def computedEmbedding (w : World) : Option Vec :=
  match w.embedResult with
  | CallResult.raise => none
  | CallResult.ok batch => batch.head?

/-- Whether an embedding vector is computed for the request: the embedding
call returns a non-empty batch. -/
def vectorComputed (w : World) : Bool :=
  (computedEmbedding w).isSome

/-- `upload_image` (app.py lines 499-583), as a function of the settings,
the world and the request, returning the response and the call trace.

Control flow mirrors the source: connection check (500, line 501),
file-part check (400, line 505), empty-filename check (400, line 509),
extension check (400, line 512), size check (400, line 520); then key and
content-type derivation (lines 524-530, the `derived*` functions above);
then the embedding attempt (`computedEmbedding`, lines 535-544); then
`put_object`, whose exception propagates to the outer handler and yields
500 (lines 546-552 with 578-583); then the DB insert, attempted only when
`embedding is not None` and with its exception swallowed (lines 554-559),
so `w.dbResult` influences nothing observable; then the 200 response with
`embedding_saved := embedding is not None` (lines 564-576). -/
def upload_image (s : Settings) (w : World) (req : UploadRequest) :
    UploadResponse × Trace :=
  if w.connected = false then
    ({ status := 500, data := none }, noCalls)
  else if req.hasFilePart = false then
    ({ status := 400, data := none }, noCalls)
  else if req.filename = "" then
    ({ status := 400, data := none }, noCalls)
  else if allowed_file s req.filename = false then
    ({ status := 400, data := none }, noCalls)
  else if req.raw.length > s.MAX_CONTENT_LENGTH then
    ({ status := 400, data := none }, noCalls)
  else
    match w.putResult with
    | CallResult.raise =>
      ({ status := 500, data := none },
       { embedCalled := true
         putCall := some (derivedBucket s req, derivedKey req)
         dbCall := none })
    | CallResult.ok _ =>
      ({ status := 200,
         data := some
           { object_name := derivedKey req
             bucket := derivedBucket s req
             proxy_url := "/img/" ++ derivedBucket s req ++ "/" ++ derivedKey req
             file_size := req.raw.length
             content_type := derivedContentType req
             embedding_saved := (computedEmbedding w).isSome } },
       { embedCalled := true
         putCall := some (derivedBucket s req, derivedKey req)
         dbCall :=
           if (computedEmbedding w).isSome then
             some (derivedBucket s req, derivedKey req)
           else none })

/-- Outcome of `oci_client.get_object` as `serve_image` observes it: a
normal return carrying the backend's `Content-Type` header (when present)
and the bytes, an `oci.exceptions.ServiceError` with its status, or any
other exception. -/
inductive GetOutcome where
  | ok (contentType : Option String) (content : List Nat)
  | serviceError (status : Nat)
  | otherError
deriving DecidableEq

/-- The environment of one GET /img request. -/
structure ImgWorld where
  connected : Bool
  getResult : GetOutcome
deriving DecidableEq

/-- A response of the image proxy: status, mimetype and the two headers the
handler sets explicitly on success. -/
structure ImgResponse where
  status : Nat
  mimetype : Option String
  cacheControl : Option String
  contentDisposition : Option String
deriving DecidableEq

/-- `serve_image` (app.py lines 464-495): 500 when disconnected; on a
successful fetch, a 200 response whose mimetype is the backend's
content-type (default `image/jpeg`), with `Cache-Control: max-age=3600` and
`Content-Disposition: inline; filename="{obj.split('/')[-1]}"`; 404 on a
`ServiceError` with status 404, 500 on any other error. -/
def serve_image (w : ImgWorld) (_bucket : String) (obj : String) : ImgResponse :=
  if w.connected = false then
    { status := 500, mimetype := none, cacheControl := none, contentDisposition := none }
  else
    match w.getResult with
    | GetOutcome.ok ct _ =>
      { status := 200
        mimetype := some (ct.getD "image/jpeg")
        cacheControl := some "max-age=3600"
        contentDisposition := some ("inline; filename=\"" ++
          String.mk ((pySplit '/' obj.toList).getLastD []) ++ "\"") }
    | GetOutcome.serviceError st =>
      if st = 404 then
        { status := 404, mimetype := none, cacheControl := none, contentDisposition := none }
      else
        { status := 500, mimetype := none, cacheControl := none, contentDisposition := none }
    | GetOutcome.otherError =>
      { status := 500, mimetype := none, cacheControl := none, contentDisposition := none }

/-! Concrete fixtures used to instantiate hypotheses in witnesses. -/

/-- A well-formed upload request: `a.png`, 3 bytes, no bucket or folder
fields, with a realistic `uuid4().hex` token. -/
def exampleReq : UploadRequest :=
  { hasFilePart := true
    filename := "a.png"
    raw := [1, 2, 3]
    formBucket := none
    formFolder := ""
    contentType := some "image/png"
    guessedType := none
    uuidHex := "0123456789abcdef0123456789abcdef" }

/-- `exampleReq` with a folder field consisting of a single slash. -/
def slashFolderReq : UploadRequest := { exampleReq with formFolder := "/" }

/-- `exampleReq` with a filename that has no dot at all. -/
def noDotReq : UploadRequest := { exampleReq with filename := "README" }

/-- `exampleReq` with a body one byte over the default 16 MiB ceiling. -/
def oversizeReq : UploadRequest :=
  { exampleReq with raw := List.replicate (16 * 1024 * 1024 + 1) 0 }

/-- `exampleReq` without a file part in the form. -/
def noFileReq : UploadRequest := { exampleReq with hasFilePart := false }

/-- A world in which a vector is computed, the store write succeeds and the
metadata insert raises. -/
def vecDbFailWorld : World :=
  { connected := true
    embedResult := CallResult.ok [[7]]
    putResult := CallResult.ok ()
    dbResult := CallResult.raise }

/-- A world in which the embedding call raises and everything else works. -/
def embedRaiseWorld : World :=
  { connected := true
    embedResult := CallResult.raise
    putResult := CallResult.ok ()
    dbResult := CallResult.ok () }

/-- A world in which a vector is computed but the store write raises. -/
def putRaiseWorld : World :=
  { connected := true
    embedResult := CallResult.ok [[7]]
    putResult := CallResult.raise
    dbResult := CallResult.ok () }

/-- A world in which the object-store client never initialized. -/
def disconnectedWorld : World :=
  { connected := false
    embedResult := CallResult.ok [[7]]
    putResult := CallResult.ok ()
    dbResult := CallResult.ok () }

/-- A world in which the inference capability returns an empty batch (so
the embedding call returns `ok []`, see `embed_image_with_cohere_v4`). -/
def emptyBatchWorld : World :=
  { connected := true
    embedResult := embed_image_with_cohere_v4 (some "us-ashburn-1") none
      (InferOutcome.returns [])
    putResult := CallResult.ok ()
    dbResult := CallResult.ok () }

/-- The success `data` object produced for `exampleReq` in worlds where a
vector is computed. -/
def exampleData : UploadData :=
  { object_name := "0123456789abcdef0123456789abcdef.png"
    bucket := "chatbot-images"
    proxy_url := "/img/chatbot-images/0123456789abcdef0123456789abcdef.png"
    file_size := 3
    content_type := "image/png"
    embedding_saved := true }

/-- The success `data` object produced for `slashFolderReq` in worlds where
a vector is computed: `"/".strip('/')` is empty, so the object key (and
hence the proxy URL's tail) begins with a slash. -/
def slashFolderData : UploadData :=
  { object_name := "/0123456789abcdef0123456789abcdef.png"
    bucket := "chatbot-images"
    proxy_url := "/img/chatbot-images//0123456789abcdef0123456789abcdef.png"
    file_size := 3
    content_type := "image/png"
    embedding_saved := true }

/-! Helper lemmas about the Python string-splitting models. -/

/-- `pySplit` never returns an empty list of segments. -/
theorem pySplit_ne_nil (sep : Char) (l : List Char) : pySplit sep l ≠ [] := by
  induction l with
  | nil => simp [pySplit]
  | cons c cs ih =>
    rw [pySplit]
    split
    · simp
    · cases h : pySplit sep cs <;> simp

/-- The number of segments is the separator count plus one. -/
theorem pySplit_length (sep : Char) (l : List Char) :
    (pySplit sep l).length = l.count sep + 1 := by
  induction l with
  | nil => simp [pySplit]
  | cons c cs ih =>
    rw [pySplit]
    split
    · rename_i h
      simp [List.count_cons, h, ih]
    · rename_i h
      cases hs : pySplit sep cs with
      | nil => exact absurd hs (pySplit_ne_nil sep cs)
      | cons g gs =>
        rw [hs] at ih
        simp [List.count_cons, h, ← ih]

/-- Appending one element that fails the predicate does not change
`takeWhile`. -/
theorem takeWhile_append_singleton_neg {α : Type} {p : α → Bool} {x : α}
    (hx : p x = false) :
    ∀ xs : List α, (xs ++ [x]).takeWhile p = xs.takeWhile p
  | [] => by simp [List.takeWhile, hx]
  | y :: ys => by
    simp only [List.cons_append, List.takeWhile_cons]
    cases h : p y
    · simp
    · simp [takeWhile_append_singleton_neg hx ys]

/-- On a list without the separator, `pySplit` returns the single segment. -/
theorem pySplit_of_not_mem {sep : Char} :
    ∀ {l : List Char}, sep ∉ l → pySplit sep l = [l]
  | [], _ => rfl
  | c :: cs, h => by
    rw [pySplit]
    have hc : ¬c = sep := fun e => h (e ▸ List.mem_cons_self c cs)
    rw [if_neg hc, pySplit_of_not_mem (fun hm => h (List.mem_cons_of_mem c hm))]

/-- The last segment of a Python split is the suffix after the last
occurrence of the separator. -/
theorem pySplit_getLastD (sep : Char) (l : List Char) :
    (pySplit sep l).getLastD [] = lastSeg sep l := by
  induction l with
  | nil => simp [pySplit, lastSeg]
  | cons c cs ih =>
    rw [pySplit]
    by_cases hc : c = sep
    · rw [if_pos hc]
      have h1 : lastSeg sep (c :: cs) = lastSeg sep cs := by
        unfold lastSeg
        rw [List.reverse_cons,
          takeWhile_append_singleton_neg (by simp [hc]) cs.reverse]
      rw [h1, ← ih]
      cases hs : pySplit sep cs with
      | nil => exact absurd hs (pySplit_ne_nil sep cs)
      | cons g gs => simp [List.getLastD_cons]
    · rw [if_neg hc]
      by_cases hm : sep ∈ cs
      · cases hs : pySplit sep cs with
        | nil => exact absurd hs (pySplit_ne_nil sep cs)
        | cons g gs =>
          have hgs : gs ≠ [] := by
            have hl := pySplit_length sep cs
            rw [hs] at hl
            have hcnt : 0 < cs.count sep := List.count_pos_iff.mpr hm
            intro he
            rw [he] at hl
            simp at hl
            omega
          have h1 : lastSeg sep (c :: cs) = lastSeg sep cs := by
            unfold lastSeg
            rw [List.reverse_cons, List.takeWhile_append]
            have : ¬(cs.reverse.takeWhile (fun x => decide ¬x = sep)).length
                = cs.reverse.length := by
              intro hlen
              have hpre := List.takeWhile_prefix
                (l := cs.reverse) (p := fun x => decide ¬x = sep)
              have heq := List.IsPrefix.eq_of_length hpre hlen
              have : sep ∈ cs.reverse := List.mem_reverse.mpr hm
              have hp := List.mem_takeWhile_imp (heq ▸ this)
              simp at hp
            rw [if_neg this]
          rw [h1, ← ih, hs]
          cases gs with
          | nil => exact absurd rfl hgs
          | cons g2 gs2 => simp [List.getLastD_cons]
      · rw [pySplit_of_not_mem hm]
        have hnm : sep ∉ c :: cs := by
          intro hmem
          rcases List.mem_cons.mp hmem with h1 | h1
          · exact hc h1.symm
          · exact hm h1
        have hall : ∀ a ∈ (c :: cs).reverse, (fun x : Char => decide ¬x = sep) a = true := by
          intro a ha
          have hmem : a ∈ c :: cs := List.mem_reverse.mp ha
          simp only [decide_eq_true_eq]
          intro he
          exact hnm (he ▸ hmem)
        unfold lastSeg
        rw [List.takeWhile_eq_self_iff.mpr hall, List.reverse_reverse]
        simp [List.getLastD_cons]

/-- A non-empty result of `strip('/')` does not begin with a slash. -/
theorem stripSlashes_head_ne_slash (f : String) {c : Char} {cs : List Char}
    (h : (stripSlashes f).data = c :: cs) : c ≠ '/' := by
  have hd := List.head?_dropWhile_not (fun x : Char => decide (x = '/'))
    ((f.toList.reverse.dropWhile (fun x : Char => decide (x = '/'))).reverse)
  have h2 : (stripSlashes f).data =
      ((f.toList.reverse.dropWhile (fun x : Char => decide (x = '/'))).reverse).dropWhile
        (fun x : Char => decide (x = '/')) := rfl
  rw [h2] at h
  rw [h] at hd
  simp at hd
  exact hd

/-- The derived object key begins with a slash exactly when the folder
field is non-empty but consists only of slashes.  The hypothesis records
that the random token is `uuid4().hex`, 32 hexadecimal characters, so it
cannot begin with `'/'`. -/
theorem derivedKey_head_slash (req : UploadRequest)
    (hhex : req.uuidHex.data.head? ≠ some '/') :
    ((derivedKey req).data.head? = some '/') ↔
      (req.formFolder ≠ "" ∧ stripSlashes req.formFolder = "") := by
  unfold derivedKey
  by_cases hf : req.formFolder = ""
  · rw [if_pos hf]
    have hdot : ("." : String).data = ['.'] := by decide
    constructor
    · intro h
      exfalso
      rw [String.data_append, String.data_append, hdot] at h
      cases hu : req.uuidHex.data with
      | nil => rw [hu] at h; simp at h
      | cons u us =>
        rw [hu] at h
        simp at h
        rw [hu] at hhex
        simp at hhex
        exact hhex h
    · rintro ⟨h1, _⟩
      exact absurd hf h1
  · rw [if_neg hf]
    by_cases hs : stripSlashes req.formFolder = ""
    · have hslash : ("/" : String).data = ['/'] := by decide
      rw [String.data_append, String.data_append, hs, hslash]
      simp [hf, hs]
    · cases hd : (stripSlashes req.formFolder).data with
      | nil =>
        exact absurd (String.ext hd) hs
      | cons c cs =>
        have hc := stripSlashes_head_ne_slash req.formFolder hd
        rw [String.data_append, String.data_append, hd]
        simp [hs, hc]

/-- Evaluation of the upload pipeline on a validated request when the
object-store write succeeds. -/
theorem upload_image_put_ok (s : Settings) (w : World) (req : UploadRequest)
    (hc : w.connected = true) (hf : req.hasFilePart = true)
    (hn : ¬req.filename = "") (ha : allowed_file s req.filename = true)
    (hs : req.raw.length ≤ s.MAX_CONTENT_LENGTH)
    (hp : w.putResult = CallResult.ok ()) :
    upload_image s w req =
      ({ status := 200,
         data := some
           { object_name := derivedKey req
             bucket := derivedBucket s req
             proxy_url := "/img/" ++ derivedBucket s req ++ "/" ++ derivedKey req
             file_size := req.raw.length
             content_type := derivedContentType req
             embedding_saved := (computedEmbedding w).isSome } },
       { embedCalled := true
         putCall := some (derivedBucket s req, derivedKey req)
         dbCall :=
           if (computedEmbedding w).isSome then
             some (derivedBucket s req, derivedKey req)
           else none }) := by
  unfold upload_image
  simp [hc, hf, hn, ha, hp, Nat.not_lt.mpr hs]

/-- Evaluation of the upload pipeline on a validated request when the
object-store write raises. -/
theorem upload_image_put_raise (s : Settings) (w : World) (req : UploadRequest)
    (hc : w.connected = true) (hf : req.hasFilePart = true)
    (hn : ¬req.filename = "") (ha : allowed_file s req.filename = true)
    (hs : req.raw.length ≤ s.MAX_CONTENT_LENGTH)
    (hp : w.putResult = CallResult.raise) :
    upload_image s w req =
      ({ status := 500, data := none },
       { embedCalled := true
         putCall := some (derivedBucket s req, derivedKey req)
         dbCall := none }) := by
  unfold upload_image
  simp [hc, hf, hn, ha, hp, Nat.not_lt.mpr hs]

/-- Inversion: any success `data` object the pipeline emits is exactly the
record derived from the request and the embedding outcome. -/
theorem upload_success_inv (s : Settings) (w : World) (req : UploadRequest)
    (d : UploadData) (h : (upload_image s w req).fst.data = some d) :
    d = { object_name := derivedKey req
          bucket := derivedBucket s req
          proxy_url := "/img/" ++ derivedBucket s req ++ "/" ++ derivedKey req
          file_size := req.raw.length
          content_type := derivedContentType req
          embedding_saved := (computedEmbedding w).isSome } := by
  unfold upload_image at h
  repeat' split at h
  all_goals simp_all

/-! The claims. -/

/-- C1: for every POST /upload that produces the success JSON, the
`embedding_saved` field is true exactly when an embedding vector was
computed (the embedding call returned a non-empty batch), and the response
is the same whether the subsequent metadata-record insert succeeds or
raises. -/
theorem upload_embedding_saved_reflects_vector (s : Settings) (w : World)
    (req : UploadRequest) (d : UploadData)
    (h : (upload_image s w req).fst.data = some d) :
    d.embedding_saved = vectorComputed w ∧
    (upload_image s { w with dbResult := CallResult.ok () } req).fst =
      (upload_image s { w with dbResult := CallResult.raise } req).fst := by
  refine ⟨?_, rfl⟩
  rw [upload_success_inv s w req d h]
  rfl

/-- Witness for C1: a concrete upload in which a vector is computed and the
DB insert raises, yet `embedding_saved` is reported true. -/
theorem upload_embedding_saved_reflects_vector_witness :
    exampleData.embedding_saved = vectorComputed vecDbFailWorld ∧
    (upload_image defaultSettings
        { vecDbFailWorld with dbResult := CallResult.ok () } exampleReq).fst =
      (upload_image defaultSettings
        { vecDbFailWorld with dbResult := CallResult.raise } exampleReq).fst :=
  upload_embedding_saved_reflects_vector defaultSettings vecDbFailWorld exampleReq
    exampleData (by decide)

/-- C2: when a validated upload's embedding call raises, the pipeline
continues with the embedding absent: the object-store write is still
performed, the response is 200 with `embedding_saved: false`, and the
metadata recorder is never invoked. -/
theorem upload_embed_failure_nonfatal (s : Settings) (w : World)
    (req : UploadRequest)
    (hc : w.connected = true) (hf : req.hasFilePart = true)
    (hn : ¬req.filename = "") (ha : allowed_file s req.filename = true)
    (hs : req.raw.length ≤ s.MAX_CONTENT_LENGTH)
    (he : w.embedResult = CallResult.raise)
    (hp : w.putResult = CallResult.ok ()) :
    (upload_image s w req).fst.status = 200 ∧
    ((upload_image s w req).fst.data.map fun d => d.embedding_saved) = some false ∧
    (upload_image s w req).snd.putCall =
      some (derivedBucket s req, derivedKey req) ∧
    (upload_image s w req).snd.dbCall = none := by
  rw [upload_image_put_ok s w req hc hf hn ha hs hp]
  simp [computedEmbedding, he]

/-- Witness for C2: the embedding call raises on `a.png` and the upload is
still a 200 with `embedding_saved: false` and no recorder call. -/
theorem upload_embed_failure_nonfatal_witness :
    (upload_image defaultSettings embedRaiseWorld exampleReq).fst.status = 200 ∧
    ((upload_image defaultSettings embedRaiseWorld exampleReq).fst.data.map
      fun d => d.embedding_saved) = some false ∧
    (upload_image defaultSettings embedRaiseWorld exampleReq).snd.putCall =
      some (derivedBucket defaultSettings exampleReq, derivedKey exampleReq) ∧
    (upload_image defaultSettings embedRaiseWorld exampleReq).snd.dbCall = none :=
  upload_embed_failure_nonfatal defaultSettings embedRaiseWorld exampleReq
    rfl rfl (by decide) (by decide) (by decide) rfl rfl

/-- C3: when a validated upload's object-store write raises, the response
is 500 and the metadata recorder is never invoked — also when an embedding
vector was computed. -/
theorem upload_put_failure_fatal (s : Settings) (w : World)
    (req : UploadRequest)
    (hc : w.connected = true) (hf : req.hasFilePart = true)
    (hn : ¬req.filename = "") (ha : allowed_file s req.filename = true)
    (hs : req.raw.length ≤ s.MAX_CONTENT_LENGTH)
    (hp : w.putResult = CallResult.raise) :
    (upload_image s w req).fst.status = 500 ∧
    (upload_image s w req).snd.dbCall = none := by
  rw [upload_image_put_raise s w req hc hf hn ha hs hp]
  exact ⟨rfl, rfl⟩

/-- Witness for C3: a concrete upload in which a vector was computed, the
store write raises, the response is 500 and the recorder is not called. -/
theorem upload_put_failure_fatal_witness :
    (upload_image defaultSettings putRaiseWorld exampleReq).fst.status = 500 ∧
    (upload_image defaultSettings putRaiseWorld exampleReq).snd.dbCall = none :=
  upload_put_failure_fatal defaultSettings putRaiseWorld exampleReq
    rfl rfl (by decide) (by decide) (by decide) rfl

/-- C4: with the store connected and a file part present, a filename
without an allow-listed extension (including one with no dot, and the empty
filename) yields a 400 response and no object-store write. -/
theorem upload_disallowed_extension_rejected (s : Settings) (w : World)
    (req : UploadRequest)
    (hc : w.connected = true) (hf : req.hasFilePart = true)
    (ha : allowed_file s req.filename = false) :
    (upload_image s w req).fst.status = 400 ∧
    (upload_image s w req).snd.putCall = none := by
  unfold upload_image
  by_cases hn : req.filename = "" <;> simp [hc, hf, hn, ha, noCalls]

/-- Witness for C4: `README` has no dot, so the upload is rejected with 400
and no store write. -/
theorem upload_disallowed_extension_rejected_witness :
    (upload_image defaultSettings vecDbFailWorld noDotReq).fst.status = 400 ∧
    (upload_image defaultSettings vecDbFailWorld noDotReq).snd.putCall = none :=
  upload_disallowed_extension_rejected defaultSettings vecDbFailWorld noDotReq
    rfl rfl (by decide)

/-- C5: with the store connected and a file part present, a body over the
configured ceiling yields a 400 response and neither the embedding backend
nor the object-store backend is contacted. -/
theorem upload_oversize_rejected_before_backends (s : Settings) (w : World)
    (req : UploadRequest)
    (hc : w.connected = true) (hf : req.hasFilePart = true)
    (hs : req.raw.length > s.MAX_CONTENT_LENGTH) :
    (upload_image s w req).fst.status = 400 ∧
    (upload_image s w req).snd.embedCalled = false ∧
    (upload_image s w req).snd.putCall = none := by
  unfold upload_image
  by_cases hn : req.filename = "" <;>
    cases ha : allowed_file s req.filename <;>
      simp [hc, hf, hn, ha, hs, noCalls]

/-- Witness for C5: a body one byte over the 16 MiB default ceiling is
rejected with 400 and no backend call. -/
theorem upload_oversize_rejected_before_backends_witness :
    (upload_image defaultSettings vecDbFailWorld oversizeReq).fst.status = 400 ∧
    (upload_image defaultSettings vecDbFailWorld oversizeReq).snd.embedCalled = false ∧
    (upload_image defaultSettings vecDbFailWorld oversizeReq).snd.putCall = none :=
  upload_oversize_rejected_before_backends defaultSettings vecDbFailWorld oversizeReq
    rfl rfl
    (by
      have h1 : oversizeReq.raw.length = 16 * 1024 * 1024 + 1 := by
        show (List.replicate (16 * 1024 * 1024 + 1) (0 : Nat)).length =
          16 * 1024 * 1024 + 1
        rw [List.length_replicate]
      have h2 : defaultSettings.MAX_CONTENT_LENGTH = 16 * 1024 * 1024 := rfl
      rw [h1, h2]
      omega)

/-- C6 counterexample: supplying the folder `"/"` (truthy in Python, and
stripped to the empty string) makes the generated object key begin with a
slash, refuting "the key never begins with a slash". -/
theorem upload_key_leading_slash_cex :
    ((upload_image defaultSettings vecDbFailWorld slashFolderReq).fst.data.map
      fun d => d.object_name) = some "/0123456789abcdef0123456789abcdef.png" ∧
    ("/0123456789abcdef0123456789abcdef.png" : String).data.head? = some '/' := by
  decide

/-- C6 (amended): the generated object key equals
`{random-hex}.{ext}` without a folder and
`{folder.strip('/')}/{random-hex}.{ext}` with one (extension lower-cased),
and it begins with a slash exactly when the supplied folder is non-empty
but consists only of slashes (so it is slash-free except in that case).
The hypothesis on the random token records that `uuid4().hex` is 32
hexadecimal characters and hence never begins with `'/'`. -/
theorem upload_object_key_format (s : Settings) (w : World)
    (req : UploadRequest) (d : UploadData)
    (h : (upload_image s w req).fst.data = some d)
    (hhex : req.uuidHex.data.head? ≠ some '/') :
    d.object_name =
      (if req.formFolder = "" then
        req.uuidHex ++ "." ++ pyLower (afterLastDot req.filename)
      else
        stripSlashes req.formFolder ++ "/" ++
          (req.uuidHex ++ "." ++ pyLower (afterLastDot req.filename))) ∧
    ((d.object_name.data.head? = some '/') ↔
      (req.formFolder ≠ "" ∧ stripSlashes req.formFolder = "")) := by
  have hd := upload_success_inv s w req d h
  constructor
  · rw [hd]
    rfl
  · rw [hd]
    exact derivedKey_head_slash req hhex

/-- Witness for C6 (amended): the slash-only folder request instantiates
both conjuncts, the second with both sides true. -/
theorem upload_object_key_format_witness :
    slashFolderData.object_name =
      (if slashFolderReq.formFolder = "" then
        slashFolderReq.uuidHex ++ "." ++ pyLower (afterLastDot slashFolderReq.filename)
      else
        stripSlashes slashFolderReq.formFolder ++ "/" ++
          (slashFolderReq.uuidHex ++ "." ++
            pyLower (afterLastDot slashFolderReq.filename))) ∧
    ((slashFolderData.object_name.data.head? = some '/') ↔
      (slashFolderReq.formFolder ≠ "" ∧
        stripSlashes slashFolderReq.formFolder = "")) :=
  upload_object_key_format defaultSettings vecDbFailWorld slashFolderReq
    slashFolderData (by decide) (by decide)

/-- C7 counterexample: with a resolvable region, an empty result batch from
the inference capability is returned as `ok []` — no error is raised — and
the pipeline then reports 200 with `embedding_saved: false`: the empty
batch silently yields an absent embedding. -/
theorem embed_empty_batch_silent_cex :
    embed_image_with_cohere_v4 (some "us-ashburn-1") none
      (InferOutcome.returns []) = CallResult.ok [] ∧
    (upload_image defaultSettings emptyBatchWorld exampleReq).fst.status = 200 ∧
    ((upload_image defaultSettings emptyBatchWorld exampleReq).fst.data.map
      fun d => d.embedding_saved) = some false := by
  decide

/-- C7 (amended): the embedding step raises exactly on a transport/model
fault or on missing region configuration; an empty result batch is NOT an
error — it is returned as `ok []`, and a validated upload whose embedding
call returned the empty batch completes with 200 and
`embedding_saved: false` (the empty batch silently yields an absent
embedding). -/
theorem embed_raises_iff_fault_or_no_region (oreg creg : Option String)
    (inf : InferOutcome) (s : Settings) (w : World) (req : UploadRequest)
    (hc : w.connected = true) (hf : req.hasFilePart = true)
    (hn : ¬req.filename = "") (ha : allowed_file s req.filename = true)
    (hs : req.raw.length ≤ s.MAX_CONTENT_LENGTH)
    (hp : w.putResult = CallResult.ok ())
    (he : w.embedResult =
      embed_image_with_cohere_v4 oreg creg (InferOutcome.returns [])) :
    (embed_image_with_cohere_v4 oreg creg inf = CallResult.raise ↔
      resolveRegion oreg creg = none ∨ inf = InferOutcome.raises) ∧
    (upload_image s w req).fst.status = 200 ∧
    ((upload_image s w req).fst.data.map fun d => d.embedding_saved) = some false := by
  refine ⟨?_, ?_, ?_⟩
  · unfold embed_image_with_cohere_v4
    cases hr : resolveRegion oreg creg <;> cases inf <;> simp
  · rw [upload_image_put_ok s w req hc hf hn ha hs hp]
  · rw [upload_image_put_ok s w req hc hf hn ha hs hp]
    unfold computedEmbedding
    rw [he]
    unfold embed_image_with_cohere_v4
    cases resolveRegion oreg creg <;> simp

/-- Witness for C7 (amended), at a resolvable region and the empty batch. -/
theorem embed_raises_iff_fault_or_no_region_witness :
    (embed_image_with_cohere_v4 (some "us-ashburn-1") none
        (InferOutcome.returns []) = CallResult.raise ↔
      resolveRegion (some "us-ashburn-1") none = none ∨
        InferOutcome.returns ([] : List Vec) = InferOutcome.raises) ∧
    (upload_image defaultSettings emptyBatchWorld exampleReq).fst.status = 200 ∧
    ((upload_image defaultSettings emptyBatchWorld exampleReq).fst.data.map
      fun d => d.embedding_saved) = some false :=
  embed_raises_iff_fault_or_no_region (some "us-ashburn-1") none
    (InferOutcome.returns []) defaultSettings emptyBatchWorld exampleReq
    rfl rfl (by decide) (by decide) (by decide) rfl rfl

/-- C8: with the object-store client not connected, every POST /upload —
however malformed the request — receives the 500 connection-error response
before any validation, and no backend is contacted. -/
theorem upload_disconnected_always_500 (s : Settings) (w : World)
    (req : UploadRequest) (hc : w.connected = false) :
    (upload_image s w req).fst = { status := 500, data := none } ∧
    (upload_image s w req).snd = noCalls := by
  unfold upload_image
  simp [hc]

/-- Witness for C8: a request with no file part (which a connected server
would reject with 400) receives 500 and causes no backend call. -/
theorem upload_disconnected_always_500_witness :
    (upload_image defaultSettings disconnectedWorld noFileReq).fst =
      { status := 500, data := none } ∧
    (upload_image defaultSettings disconnectedWorld noFileReq).snd = noCalls :=
  upload_disconnected_always_500 defaultSettings disconnectedWorld noFileReq rfl

/-- C9: every successful GET /img/{bucket}/{key} response carries
`Cache-Control: max-age=3600` and
`Content-Disposition: inline; filename="<basename>"`, where the basename is
the last slash-separated segment of the key (the suffix after the key's
last slash). -/
theorem serve_image_success_headers (w : ImgWorld) (bucket obj : String)
    (ct : Option String) (bytes : List Nat)
    (hc : w.connected = true) (hg : w.getResult = GetOutcome.ok ct bytes) :
    (serve_image w bucket obj).status = 200 ∧
    (serve_image w bucket obj).cacheControl = some "max-age=3600" ∧
    (serve_image w bucket obj).contentDisposition =
      some ("inline; filename=\"" ++ String.mk (lastSeg '/' obj.toList) ++ "\"") := by
  unfold serve_image
  rw [pySplit_getLastD]
  simp [hc, hg]

/-- Witness for C9: fetching key `x/y/c.png` yields the cache header and an
inline disposition naming `c.png`. -/
theorem serve_image_success_headers_witness :
    (serve_image { connected := true, getResult := GetOutcome.ok (some "image/png") [1] }
      "b" "x/y/c.png").status = 200 ∧
    (serve_image { connected := true, getResult := GetOutcome.ok (some "image/png") [1] }
      "b" "x/y/c.png").cacheControl = some "max-age=3600" ∧
    (serve_image { connected := true, getResult := GetOutcome.ok (some "image/png") [1] }
      "b" "x/y/c.png").contentDisposition =
      some ("inline; filename=\"" ++ String.mk (lastSeg '/' "x/y/c.png".toList) ++ "\"") :=
  serve_image_success_headers
    { connected := true, getResult := GetOutcome.ok (some "image/png") [1] }
    "b" "x/y/c.png" (some "image/png") [1] rfl rfl

/-- C10: a validated upload whose form carries no bucket field stores the
object in the configured default bucket and reports that bucket in the
response. -/
theorem upload_default_bucket (s : Settings) (w : World) (req : UploadRequest)
    (hb : req.formBucket = none)
    (hc : w.connected = true) (hf : req.hasFilePart = true)
    (hn : ¬req.filename = "") (ha : allowed_file s req.filename = true)
    (hs : req.raw.length ≤ s.MAX_CONTENT_LENGTH)
    (hp : w.putResult = CallResult.ok ()) :
    ((upload_image s w req).fst.data.map fun d => d.bucket) = some s.OCI_BUCKET ∧
    ((upload_image s w req).snd.putCall.map Prod.fst) = some s.OCI_BUCKET := by
  rw [upload_image_put_ok s w req hc hf hn ha hs hp]
  simp [derivedBucket, hb]

/-- Witness for C10: `exampleReq` has no bucket field and lands in the
configured default bucket. -/
theorem upload_default_bucket_witness :
    ((upload_image defaultSettings vecDbFailWorld exampleReq).fst.data.map
      fun d => d.bucket) = some defaultSettings.OCI_BUCKET ∧
    ((upload_image defaultSettings vecDbFailWorld exampleReq).snd.putCall.map
      Prod.fst) = some defaultSettings.OCI_BUCKET :=
  upload_default_bucket defaultSettings vecDbFailWorld exampleReq
    rfl rfl rfl (by decide) (by decide) (by decide) rfl

end ImageGateway
